import Mathlib

/-!
Shallow embedding of `espargos/backlog.py` (class `CSIBacklog`) from the
pyespargos repository, together with theorems about its ring-buffer
behaviour.

Modelling conventions:
* numpy arrays along the ring axis are `List`s of length `size`;
  `np.roll(a, -h, axis = 0)` is `rollLeft a h`; the Python slice
  `a[-k:]` is `negSlice a k` (for `k = 0` Python returns the whole
  array, and `negSlice` reproduces exactly that).
* the per-frame CSI tensor (one slot of `storage_ht40`) and the RSSI
  tensor (one slot of `storage_rssi`) are opaque values of type
  parameters `Chan` and `Rssi`; scalar timestamps are rationals and
  `np.mean` of a timestamp vector is `npMean`.
* Python exceptions (failed `assert` statements) are `Except String`;
  an `Except.error` result means the method raised, with the mutations
  performed before the raise already reflected in no field (in
  `onNewCSI` both asserts fire before any storage write can differ).
* `self.pool` provides `get_calibration()`, modelled by the
  `Pool.calibration` field; `get_shape()` only fixes tensor dimensions,
  which are absorbed into the opaque types.
* `threading.Thread(target = self.run).start()` inside `start` is
  modelled by incrementing the counter `thread_starts` (the number of
  producer contexts ever spawned); `start` performs nothing else.
* `re.compile(filter_regex)` is an external call that either raises or
  returns a compiled matcher; its outcome is a parameter of
  `set_mac_filter` of type `Except String (String → Bool)`.  A raise in
  `re.compile` propagates before the assignment to `self.mac_filter`
  executes, so on the error side the state is returned unchanged.
* the subscriber list `self.callbacks` is abstracted to its length
  `callbacks`; `onNewCSI` reports how many callback invocations the
  `for cb in self.callbacks: cb()` loop performed.
-/

/-- `np.roll (a, -k, axis = 0)`: the element at index `k % a.length`
moves to index `0`.  `List.rotate` has exactly this semantics
(`l.rotate k = l.drop (k % l.length) ++ l.take (k % l.length)`). -/
def rollLeft {α : Type} (l : List α) (k : Nat) : List α :=
  l.rotate k

/-- The Python slice `a[-k:]`: the last `k` elements for `0 < k ≤ len`,
and the whole list for `k = 0` (since `a[-0:]` is `a[0:]`) or `k > len`. -/
def negSlice {α : Type} (l : List α) (k : Nat) : List α :=
  if k = 0 then l else l.drop (l.length - k)

/-- `np.mean` of a vector of scalars. -/
def npMean (l : List ℚ) : ℚ := l.sum / (l.length : ℚ)

/-- The calibration adapter returned by `pool.get_calibration()`:
`apply_timestamps` and `apply_ht40` transforms. -/
structure Calibration (Chan : Type) where
  apply_timestamps : List ℚ → List ℚ
  apply_ht40 : Chan → Chan

/-- The part of the pool that `CSIBacklog` consults per frame. -/
structure Pool (Chan : Type) where
  calibration : Option (Calibration Chan)

/-- One clustered CSI frame, with the accessors `onNewCSI` calls on it:
`get_source_mac()`, `get_sensor_timestamps()`, `is_ht40()`,
`deserialize_csi_ht40()` and `get_rssi()`. -/
structure ClusteredCSI (Chan Rssi : Type) where
  source_mac : String
  sensor_timestamps : List ℚ
  is_ht40 : Bool
  csi_ht40 : Chan
  rssi : Rssi

/-- The mutable state of a `CSIBacklog` object. -/
structure CSIBacklog (Chan Rssi : Type) where
  size : Nat
  enable_ht40 : Bool
  calibrate : Bool
  storage_ht40 : List Chan
  storage_timestamps : List ℚ
  storage_rssi : List Rssi
  head : Nat
  latest : Option Nat
  filllevel : Nat
  mac_filter : Option (String → Bool)
  callbacks : Nat
  running : Bool
  thread_starts : Nat

/-- `CSIBacklog.__init__`: zero-filled storage arrays of length `size`,
`head = 0`, `latest = None`, `filllevel = 0`, no MAC filter, no
callbacks, `running = True`.  In the source the defaults are
`enable_ht40 = True`, `calibrate = True`, `size = 200`. -/
def CSIBacklog.init {Chan Rssi : Type} (zeroChan : Chan) (zeroRssi : Rssi)
    (enable_ht40 : Bool) (calibrate : Bool) (size : Nat) :
    CSIBacklog Chan Rssi where
  size := size
  enable_ht40 := enable_ht40
  calibrate := calibrate
  storage_ht40 := List.replicate size zeroChan
  storage_timestamps := List.replicate size 0
  storage_rssi := List.replicate size zeroRssi
  head := 0
  latest := none
  filllevel := 0
  mac_filter := none
  callbacks := 0
  running := true
  thread_starts := 0

/-- The body of `onNewCSI` after the MAC-filter guard: store the (mean,
optionally calibrated) timestamp at `head`, store the (optionally
calibrated) HT40 CSI at `head` when `enable_ht40` and the frame is
HT40, store the RSSI at `head`, then advance `latest`, `head` and
`filllevel` and run the callbacks.  The returned `Nat` counts callback
invocations.  Both asserts test the same condition
(`self.pool.get_calibration() is not None` under `self.calibrate`), so
the second can only fire if the first already fired; hence an error
result always corresponds to a raise before any storage mutation, and
collecting the writes at the end is observationally faithful. -/
def CSIBacklog.acceptFrame {Chan Rssi : Type} (pool : Pool Chan)
    (s : CSIBacklog Chan Rssi) (c : ClusteredCSI Chan Rssi) :
    Except String (CSIBacklog Chan Rssi × Nat) :=
  match (if s.calibrate then
      match pool.calibration with
      | some cal => Except.ok (cal.apply_timestamps c.sensor_timestamps)
      | none => Except.error "assertion failed: self.pool.get_calibration() is not None"
    else Except.ok c.sensor_timestamps : Except String (List ℚ)) with
  | Except.error e => Except.error e
  | Except.ok sensor_timestamps =>
    match (if s.enable_ht40 && c.is_ht40 then
        if s.calibrate then
          match pool.calibration with
          | some cal => Except.ok (s.storage_ht40.set s.head (cal.apply_ht40 c.csi_ht40))
          | none => Except.error "assertion failed: self.pool.get_calibration() is not None"
        else Except.ok (s.storage_ht40.set s.head c.csi_ht40)
      else Except.ok s.storage_ht40 : Except String (List Chan)) with
    | Except.error e => Except.error e
    | Except.ok new_ht40 =>
      Except.ok ({ s with
          storage_timestamps := s.storage_timestamps.set s.head (npMean sensor_timestamps),
          storage_ht40 := new_ht40,
          storage_rssi := s.storage_rssi.set s.head c.rssi,
          latest := some s.head,
          head := (s.head + 1) % s.size,
          filllevel := min (s.filllevel + 1) s.size }, s.callbacks)

/-- `onNewCSI(clustered_csi)`: drop the frame early when a MAC filter is
installed and does not match, otherwise run `acceptFrame`. -/
def CSIBacklog.onNewCSI {Chan Rssi : Type} (pool : Pool Chan)
    (s : CSIBacklog Chan Rssi) (c : ClusteredCSI Chan Rssi) :
    Except String (CSIBacklog Chan Rssi × Nat) :=
  match s.mac_filter with
  | some f => if f c.source_mac then s.acceptFrame pool c else Except.ok (s, 0)
  | none => s.acceptFrame pool c

/-- The acceptance condition of the MAC-filter guard in `onNewCSI`. -/
def CSIBacklog.accepts {Chan Rssi : Type} (s : CSIBacklog Chan Rssi)
    (c : ClusteredCSI Chan Rssi) : Bool :=
  match s.mac_filter with
  | some f => f c.source_mac
  | none => true

/-- `add_update_callback(cb)`: appends to the callback list. -/
def CSIBacklog.add_update_callback {Chan Rssi : Type}
    (s : CSIBacklog Chan Rssi) : CSIBacklog Chan Rssi :=
  { s with callbacks := s.callbacks + 1 }

/-- `get_ht40()`: asserts `enable_ht40`, then returns
`np.roll(storage_ht40, -head, axis = 0)[-filllevel:]`. -/
def CSIBacklog.get_ht40 {Chan Rssi : Type} (s : CSIBacklog Chan Rssi) :
    Except String (List Chan) :=
  if s.enable_ht40 then
    Except.ok (negSlice (rollLeft s.storage_ht40 s.head) s.filllevel)
  else Except.error "assertion failed: self.enable_ht40"

/-- `get_rssi()`: returns `np.roll(storage_rssi, -head, axis = 0)[-filllevel:]`
with no assertion. -/
def CSIBacklog.get_rssi {Chan Rssi : Type} (s : CSIBacklog Chan Rssi) :
    List Rssi :=
  negSlice (rollLeft s.storage_rssi s.head) s.filllevel

/-- `get_timestamps()`: returns
`np.roll(storage_timestamps, -head, axis = 0)[-filllevel:]` with no
assertion. -/
def CSIBacklog.get_timestamps {Chan Rssi : Type} (s : CSIBacklog Chan Rssi) :
    List ℚ :=
  negSlice (rollLeft s.storage_timestamps s.head) s.filllevel

/-- `get_all()`: asserts `enable_ht40`, then returns the triple
`(get_ht40(), get_rssi(), get_timestamps())`. -/
def CSIBacklog.get_all {Chan Rssi : Type} (s : CSIBacklog Chan Rssi) :
    Except String (List Chan × List Rssi × List ℚ) :=
  if s.enable_ht40 then
    match s.get_ht40 with
    | Except.error e => Except.error e
    | Except.ok h40 => Except.ok (h40, s.get_rssi, s.get_timestamps)
  else Except.error "assertion failed: self.enable_ht40"

/-- `get_latest_timestamp()`: `None` when `latest is None`, otherwise
`storage_timestamps[latest]`.  The Python indexing is in bounds on every
reachable state (`latest < size`, proved below), so the `getD` default
is never consulted there. -/
def CSIBacklog.get_latest_timestamp {Chan Rssi : Type}
    (s : CSIBacklog Chan Rssi) : Option ℚ :=
  match s.latest with
  | none => none
  | some i => some (s.storage_timestamps.getD i 0)

/-- `nonempty()`: `self.latest is not None`. -/
def CSIBacklog.nonempty {Chan Rssi : Type} (s : CSIBacklog Chan Rssi) : Bool :=
  s.latest.isSome

/-- `start()`: unconditionally creates and starts a fresh producer
thread (`self.thread = threading.Thread(target=self.run)` followed by
`self.thread.start()`); no state is inspected, nothing can fail, and
no other field changes. -/
def CSIBacklog.start {Chan Rssi : Type} (s : CSIBacklog Chan Rssi) :
    CSIBacklog Chan Rssi :=
  { s with thread_starts := s.thread_starts + 1 }

/-- `stop()`: clears `running` and joins the thread; buffered contents
are preserved. -/
def CSIBacklog.stop {Chan Rssi : Type} (s : CSIBacklog Chan Rssi) :
    CSIBacklog Chan Rssi :=
  { s with running := false }

/-- `set_mac_filter(filter_regex)`: `self.mac_filter =
re.compile(filter_regex)`.  The argument is the outcome of the external
`re.compile` call; when it raises, the exception propagates before the
assignment executes, so the state (in particular the previously
installed filter) is unchanged and the error is reported; when it
returns a matcher, that matcher replaces the previous filter. -/
def CSIBacklog.set_mac_filter {Chan Rssi : Type} (s : CSIBacklog Chan Rssi)
    (compiled : Except String (String → Bool)) :
    CSIBacklog Chan Rssi × Option String :=
  match compiled with
  | Except.error e => (s, some e)
  | Except.ok f => ({ s with mac_filter := some f }, none)

/-- Sequential delivery of a list of frames through `onNewCSI`,
propagating a raised exception. -/
def CSIBacklog.processAll {Chan Rssi : Type} (pool : Pool Chan)
    (s : CSIBacklog Chan Rssi) :
    List (ClusteredCSI Chan Rssi) → Except String (CSIBacklog Chan Rssi)
  | [] => Except.ok s
  | c :: rest =>
    match s.onNewCSI pool c with
    | Except.error e => Except.error e
    | Except.ok r => CSIBacklog.processAll pool r.1 rest

/-- The pure state transformer realised by one `acceptFrame` call when
`calibrate` is off (then no assert can fire and no calibration
transform is applied). -/
def CSIBacklog.pureStep {Chan Rssi : Type} (s : CSIBacklog Chan Rssi)
    (c : ClusteredCSI Chan Rssi) : CSIBacklog Chan Rssi :=
  { s with
      storage_timestamps := s.storage_timestamps.set s.head (npMean c.sensor_timestamps),
      storage_ht40 :=
        if s.enable_ht40 && c.is_ht40 then s.storage_ht40.set s.head c.csi_ht40
        else s.storage_ht40,
      storage_rssi := s.storage_rssi.set s.head c.rssi,
      latest := some s.head,
      head := (s.head + 1) % s.size,
      filllevel := min (s.filllevel + 1) s.size }

/-- The value that `onNewCSI` stores at `storage_timestamps[head]` for
an accepted frame: the mean of its sensor timestamps, calibrated first
when calibration is enabled (the `getD` fallback is only reached in the
state where `onNewCSI` would instead raise). -/
def storedTimestamp {Chan Rssi : Type} (pool : Pool Chan)
    (s : CSIBacklog Chan Rssi) (c : ClusteredCSI Chan Rssi) : ℚ :=
  npMean (if s.calibrate then
      (pool.calibration.map (fun cal => cal.apply_timestamps c.sensor_timestamps)).getD
        c.sensor_timestamps
    else c.sensor_timestamps)

/-- The value that `onNewCSI` stores at `storage_ht40[head]` for an
accepted HT40 frame in HT40 mode: the deserialized CSI, calibrated
first when calibration is enabled (the `getD` fallback is only reached
in the state where `onNewCSI` would instead raise). -/
def storedHt40 {Chan Rssi : Type} (pool : Pool Chan)
    (s : CSIBacklog Chan Rssi) (c : ClusteredCSI Chan Rssi) : Chan :=
  if s.calibrate then
    (pool.calibration.map (fun cal => cal.apply_ht40 c.csi_ht40)).getD c.csi_ht40
  else c.csi_ht40

/-- The rolled view of a ring of capacity `N` that was zero-initialised
with `z` and then received the writes `l` in order: the unused slots
(still `z`) first, then the surviving suffix of `l`, oldest first. -/
def pad0 {α : Type} (N : Nat) (z : α) (l : List α) : List α :=
  List.replicate (N - l.length) z ++ l.drop (l.length - N)

/-- The ring-buffer invariant tying a backlog state to the list `L` of
frames delivered so far, for a backlog constructed with `calibrate =
False` and no MAC filter.  The three storage arrays, once rotated to
start at `head`, are the zero-padded suffix of the delivered values. -/
def RingInv {Chan Rssi : Type} (zeroChan : Chan) (zeroRssi : Rssi)
    (enable_ht40 : Bool) (N : Nat) (L : List (ClusteredCSI Chan Rssi))
    (s : CSIBacklog Chan Rssi) : Prop :=
  s.size = N ∧ s.enable_ht40 = enable_ht40 ∧ s.calibrate = false ∧
  s.mac_filter = none ∧
  s.head = L.length % N ∧ s.filllevel = min L.length N ∧
  s.storage_timestamps.length = N ∧ s.storage_ht40.length = N ∧
  s.storage_rssi.length = N ∧
  s.get_latest_timestamp = (L.map fun c => npMean c.sensor_timestamps).getLast? ∧
  rollLeft s.storage_timestamps s.head =
    pad0 N 0 (L.map fun c => npMean c.sensor_timestamps) ∧
  rollLeft s.storage_rssi s.head = pad0 N zeroRssi (L.map ClusteredCSI.rssi) ∧
  (enable_ht40 = true → (∀ c ∈ L, c.is_ht40 = true) →
    rollLeft s.storage_ht40 s.head = pad0 N zeroChan (L.map ClusteredCSI.csi_ht40))

/-- The structural invariants of a backlog state (stated for positive
capacity; a capacity of zero would make the Python `% self.size` raise
`ZeroDivisionError` on the first accepted frame). -/
def GoodState {Chan Rssi : Type} (s : CSIBacklog Chan Rssi) : Prop :=
  0 < s.size →
    s.storage_timestamps.length = s.size ∧
    s.storage_ht40.length = s.size ∧
    s.storage_rssi.length = s.size ∧
    s.filllevel ≤ s.size ∧
    s.head < s.size ∧
    (s.latest.isSome ↔ 0 < s.filllevel) ∧
    (∀ i, s.latest = some i → i < s.size)

/-- States reachable from a freshly constructed backlog by the public
operations. -/
inductive CSIBacklog.Reachable {Chan Rssi : Type} :
    CSIBacklog Chan Rssi → Prop
  | init (zeroChan : Chan) (zeroRssi : Rssi) (enable_ht40 calibrate : Bool)
      (size : Nat) :
      CSIBacklog.Reachable (CSIBacklog.init zeroChan zeroRssi enable_ht40 calibrate size)
  | frame (pool : Pool Chan) (s s' : CSIBacklog Chan Rssi)
      (c : ClusteredCSI Chan Rssi) (k : Nat) :
      CSIBacklog.Reachable s → s.onNewCSI pool c = Except.ok (s', k) →
      CSIBacklog.Reachable s'
  | set_filter (s : CSIBacklog Chan Rssi) (compiled : Except String (String → Bool)) :
      CSIBacklog.Reachable s → CSIBacklog.Reachable (s.set_mac_filter compiled).1
  | callback (s : CSIBacklog Chan Rssi) :
      CSIBacklog.Reachable s → CSIBacklog.Reachable s.add_update_callback
  | start (s : CSIBacklog Chan Rssi) :
      CSIBacklog.Reachable s → CSIBacklog.Reachable s.start
  | stop (s : CSIBacklog Chan Rssi) :
      CSIBacklog.Reachable s → CSIBacklog.Reachable s.stop

theorem rollLeft_length {α : Type} (l : List α) (k : Nat) :
    (rollLeft l k).length = l.length :=
  List.length_rotate l k

theorem pad0_length {α : Type} (N : Nat) (z : α) (l : List α) :
    (pad0 N z l).length = N := by
  simp only [pad0, List.length_append, List.length_replicate, List.length_drop]
  omega

theorem pad0_nil {α : Type} (N : Nat) (z : α) :
    pad0 N z ([] : List α) = List.replicate N z := by
  simp [pad0]

theorem set_rotate_self {α : Type} (a : List α) (h : Nat) (x : α)
    (hh : h < a.length) :
    (a.set h x).rotate h = (a.rotate h).set 0 x := by
  rw [List.rotate_eq_drop_append_take
        (by rw [List.length_set]; exact Nat.le_of_lt hh),
      List.rotate_eq_drop_append_take (Nat.le_of_lt hh),
      List.drop_set, if_neg (Nat.lt_irrefl h), Nat.sub_self,
      List.set_take,
      List.set_eq_of_length_le
        (le_trans (le_of_eq (List.length_take h a)) (Nat.min_le_left h a.length)),
      List.set_append_left _ _ (by rw [List.length_drop]; omega)]

theorem rotate_one_set_zero {α : Type} (b : List α) (x : α) (hb : b ≠ []) :
    (b.set 0 x).rotate 1 = b.drop 1 ++ [x] := by
  cases b with
  | nil => exact absurd rfl hb
  | cons y t => simp [List.rotate_cons_succ]

theorem ring_step {α : Type} (a : List α) (h : Nat) (x : α)
    (hh : h < a.length) :
    (a.set h x).rotate ((h + 1) % a.length) = (a.rotate h).drop 1 ++ [x] := by
  have h1 : (a.set h x).rotate ((h + 1) % a.length) = (a.set h x).rotate (h + 1) := by
    rw [show (h + 1) % a.length = (h + 1) % (a.set h x).length by rw [List.length_set]]
    exact List.rotate_mod _ _
  rw [h1, ← List.rotate_rotate, set_rotate_self a h x hh,
      rotate_one_set_zero _ _ (List.length_pos.mp (by rw [List.length_rotate]; omega))]

theorem pad0_concat {α : Type} (N : Nat) (z : α) (l : List α) (x : α)
    (hN : 0 < N) :
    pad0 N z (l ++ [x]) = (pad0 N z l).drop 1 ++ [x] := by
  unfold pad0
  rcases Nat.lt_or_ge l.length N with hlt | hge
  · have h1 : l.length - N = 0 := by omega
    have h2 : l.length + 1 - N = 0 := by omega
    have h3 : N - l.length = (N - (l.length + 1)) + 1 := by omega
    simp only [List.length_append, List.length_singleton, h1, h2, h3,
      List.drop_zero, List.replicate_succ, List.cons_append, List.drop_succ_cons,
      List.drop_zero, List.append_assoc]
  · have h1 : N - l.length = 0 := by omega
    have h2 : N - (l.length + 1) = 0 := by omega
    simp only [List.length_append, List.length_singleton, h1, h2,
      List.replicate_zero, List.nil_append]
    rw [List.drop_drop, List.drop_append_of_le_length (by omega)]
    congr 2
    omega

theorem negSlice_pad0 {α : Type} (N : Nat) (z : α) (l : List α)
    (hN : 0 < N) (hl : l ≠ []) :
    negSlice (pad0 N z l) (min l.length N) = l.drop (l.length - N) := by
  have hn : 0 < l.length := List.length_pos.mpr hl
  unfold negSlice
  rw [if_neg (by omega : ¬ min l.length N = 0), pad0_length]
  unfold pad0
  rcases Nat.lt_or_ge l.length N with hlt | hge
  · have h1 : l.length - N = 0 := by omega
    have h2 : N - min l.length N = N - l.length := by omega
    rw [h1, h2, List.drop_zero,
        List.drop_append_eq_append_drop]
    simp
  · have h1 : min l.length N = N := by omega
    have h2 : N - l.length = 0 := by omega
    simp [h1, h2]

theorem acceptFrame_nocal {Chan Rssi : Type} (pool : Pool Chan)
    (s : CSIBacklog Chan Rssi) (c : ClusteredCSI Chan Rssi)
    (hc : s.calibrate = false) :
    s.acceptFrame pool c = Except.ok (s.pureStep c, s.callbacks) := by
  unfold CSIBacklog.acceptFrame CSIBacklog.pureStep
  rw [hc]
  simp only [Bool.false_eq_true, if_false]
  by_cases hb : (s.enable_ht40 && c.is_ht40) = true
  · rw [if_pos hb, if_pos hb]
  · rw [if_neg hb, if_neg hb]

theorem onNewCSI_nofilter {Chan Rssi : Type} (pool : Pool Chan)
    (s : CSIBacklog Chan Rssi) (c : ClusteredCSI Chan Rssi)
    (hm : s.mac_filter = none) :
    s.onNewCSI pool c = s.acceptFrame pool c := by
  unfold CSIBacklog.onNewCSI
  rw [hm]

theorem pureStep_config {Chan Rssi : Type} (s : CSIBacklog Chan Rssi)
    (c : ClusteredCSI Chan Rssi) :
    (s.pureStep c).size = s.size ∧ (s.pureStep c).enable_ht40 = s.enable_ht40 ∧
    (s.pureStep c).calibrate = s.calibrate ∧
    (s.pureStep c).mac_filter = s.mac_filter ∧
    (s.pureStep c).callbacks = s.callbacks := by
  exact ⟨rfl, rfl, rfl, rfl, rfl⟩

theorem processAll_pureStep {Chan Rssi : Type} (pool : Pool Chan)
    (s : CSIBacklog Chan Rssi) (L : List (ClusteredCSI Chan Rssi))
    (hc : s.calibrate = false) (hm : s.mac_filter = none) :
    CSIBacklog.processAll pool s L = Except.ok (L.foldl CSIBacklog.pureStep s) := by
  induction L generalizing s with
  | nil => rfl
  | cons c rest ih =>
    unfold CSIBacklog.processAll
    rw [onNewCSI_nofilter pool s c hm, acceptFrame_nocal pool s c hc]
    exact ih (s.pureStep c) hc hm

theorem ring_master {Chan Rssi : Type} (zeroChan : Chan) (zeroRssi : Rssi)
    (eh : Bool) (N : Nat) (hN : 0 < N) (L : List (ClusteredCSI Chan Rssi)) :
    RingInv zeroChan zeroRssi eh N L
      (L.foldl CSIBacklog.pureStep (CSIBacklog.init zeroChan zeroRssi eh false N)) := by
  induction L using List.reverseRecOn with
  | nil =>
    refine ⟨rfl, rfl, rfl, rfl, by simp [CSIBacklog.init], by simp [CSIBacklog.init],
      ?_, ?_, ?_, rfl, ?_, ?_, ?_⟩
    · simp [CSIBacklog.init]
    · simp [CSIBacklog.init]
    · simp [CSIBacklog.init]
    · simp [CSIBacklog.init, rollLeft, pad0]
    · simp [CSIBacklog.init, rollLeft, pad0]
    · intro _ _
      simp [CSIBacklog.init, rollLeft, pad0]
  | append_singleton l x ih =>
    obtain ⟨hsize, henh, hcal, hmf, hhead, hfill, hlents, hlench, hlenr,
      hlatest, hrts, hrrs, hrch⟩ := ih
    set s := l.foldl CSIBacklog.pureStep (CSIBacklog.init zeroChan zeroRssi eh false N) with hs
    have hheadlt : s.head < N := by
      rw [hhead]; exact Nat.mod_lt _ hN
    have hfold : (l ++ [x]).foldl CSIBacklog.pureStep
        (CSIBacklog.init zeroChan zeroRssi eh false N) = s.pureStep x := by
      rw [List.foldl_append, List.foldl_cons, List.foldl_nil]
    rw [hfold]
    refine ⟨hsize, henh, hcal, hmf, ?_, ?_, ?_, ?_, ?_, ?_, ?_, ?_, ?_⟩
    · show (s.head + 1) % s.size = (l ++ [x]).length % N
      rw [hsize, hhead, Nat.mod_add_mod]
      simp
    · show min (s.filllevel + 1) s.size = min (l ++ [x]).length N
      rw [hsize, hfill]
      simp only [List.length_append, List.length_singleton]
      omega
    · show (s.storage_timestamps.set s.head (npMean x.sensor_timestamps)).length = N
      rw [List.length_set, hlents]
    · show (if s.enable_ht40 && x.is_ht40 then
          s.storage_ht40.set s.head x.csi_ht40 else s.storage_ht40).length = N
      by_cases hb : (s.enable_ht40 && x.is_ht40) = true
      · rw [if_pos hb, List.length_set, hlench]
      · rw [if_neg hb, hlench]
    · show (s.storage_rssi.set s.head x.rssi).length = N
      rw [List.length_set, hlenr]
    · show (s.pureStep x).get_latest_timestamp =
        ((l ++ [x]).map fun c => npMean c.sensor_timestamps).getLast?
    
      unfold CSIBacklog.get_latest_timestamp
      show some ((s.storage_timestamps.set s.head (npMean x.sensor_timestamps)).getD s.head 0) = _
      rw [List.map_append, List.map_singleton, List.getLast?_concat]
      rw [List.getD_eq_getElem?_getD,
          List.getElem?_set_self (by rw [hlents]; exact hheadlt)]
      rfl
    · show rollLeft (s.storage_timestamps.set s.head (npMean x.sensor_timestamps))
        ((s.head + 1) % s.size) = _
      rw [hsize]
      unfold rollLeft
      rw [show (s.head + 1) % N = (s.head + 1) % s.storage_timestamps.length by
            rw [hlents]]
      rw [ring_step _ _ _ (by rw [hlents]; exact hheadlt)]
      rw [show s.storage_timestamps.rotate s.head = rollLeft s.storage_timestamps s.head from rfl]
      rw [hrts, List.map_append, List.map_singleton,
          pad0_concat _ _ _ _ hN]
    · show rollLeft (s.storage_rssi.set s.head x.rssi) ((s.head + 1) % s.size) = _
      rw [hsize]
      unfold rollLeft
      rw [show (s.head + 1) % N = (s.head + 1) % s.storage_rssi.length by rw [hlenr]]
      rw [ring_step _ _ _ (by rw [hlenr]; exact hheadlt)]
      rw [show s.storage_rssi.rotate s.head = rollLeft s.storage_rssi s.head from rfl]
      rw [hrrs, List.map_append, List.map_singleton, pad0_concat _ _ _ _ hN]
    · intro hehT hall
      have hx : x.is_ht40 = true := hall x (by simp)
      have hb : (s.enable_ht40 && x.is_ht40) = true := by
        rw [henh, hehT, hx]; rfl
      show rollLeft (if s.enable_ht40 && x.is_ht40 then
          s.storage_ht40.set s.head x.csi_ht40 else s.storage_ht40)
        ((s.head + 1) % s.size) = _
      rw [if_pos hb, hsize]
      unfold rollLeft
      rw [show (s.head + 1) % N = (s.head + 1) % s.storage_ht40.length by rw [hlench]]
      rw [ring_step _ _ _ (by rw [hlench]; exact hheadlt)]
      rw [show s.storage_ht40.rotate s.head = rollLeft s.storage_ht40 s.head from rfl]
      rw [hrch hehT (fun c hc => hall c (by simp [hc])),
          List.map_append, List.map_singleton, pad0_concat _ _ _ _ hN]

theorem acceptFrame_ok_fields {Chan Rssi : Type} (pool : Pool Chan)
    (s s' : CSIBacklog Chan Rssi) (c : ClusteredCSI Chan Rssi) (k : Nat)
    (h : s.acceptFrame pool c = Except.ok (s', k)) :
    s'.size = s.size ∧ s'.enable_ht40 = s.enable_ht40 ∧
    s'.calibrate = s.calibrate ∧ s'.mac_filter = s.mac_filter ∧
    s'.callbacks = s.callbacks ∧ s'.running = s.running ∧
    s'.thread_starts = s.thread_starts ∧
    s'.head = (s.head + 1) % s.size ∧ s'.latest = some s.head ∧
    s'.filllevel = min (s.filllevel + 1) s.size ∧
    s'.storage_timestamps.length = s.storage_timestamps.length ∧
    s'.storage_ht40.length = s.storage_ht40.length ∧
    s'.storage_rssi.length = s.storage_rssi.length ∧
    k = s.callbacks := by
  unfold CSIBacklog.acceptFrame at h
  split at h
  · exact absurd h (by simp)
  · rename_i sensor_timestamps hts
    split at h
    · exact absurd h (by simp)
    · rename_i new_ht40 hht
      have hlen : new_ht40.length = s.storage_ht40.length := by
        split at hht
        · split at hht
          · split at hht
            · injection hht with hht'
              rw [← hht', List.length_set]
            · exact absurd hht (by simp)
          · injection hht with hht'
            rw [← hht', List.length_set]
        · injection hht with hht'
          rw [← hht']
      obtain ⟨h1, h2⟩ : ({ s with
          storage_timestamps := s.storage_timestamps.set s.head (npMean sensor_timestamps),
          storage_ht40 := new_ht40,
          storage_rssi := s.storage_rssi.set s.head c.rssi,
          latest := some s.head,
          head := (s.head + 1) % s.size,
          filllevel := min (s.filllevel + 1) s.size } : CSIBacklog Chan Rssi) = s' ∧
          s.callbacks = k := by
        injection h with h'
        exact ⟨congrArg Prod.fst h', congrArg Prod.snd h'⟩
      subst h1 h2
      refine ⟨rfl, rfl, rfl, rfl, rfl, rfl, rfl, rfl, rfl, rfl, ?_, hlen, ?_, rfl⟩
      · exact List.length_set ..
      · exact List.length_set ..

theorem onNewCSI_ok_cases {Chan Rssi : Type} (pool : Pool Chan)
    (s s' : CSIBacklog Chan Rssi) (c : ClusteredCSI Chan Rssi) (k : Nat)
    (h : s.onNewCSI pool c = Except.ok (s', k)) :
    (s' = s ∧ k = 0 ∧ s.accepts c = false) ∨
    (s.accepts c = true ∧ s.acceptFrame pool c = Except.ok (s', k)) := by
  unfold CSIBacklog.onNewCSI at h
  cases hm : s.mac_filter with
  | none =>
    simp only [hm] at h
    exact Or.inr ⟨by unfold CSIBacklog.accepts; rw [hm], h⟩
  | some f =>
    simp only [hm] at h
    by_cases hf : f c.source_mac
    · rw [if_pos hf] at h
      exact Or.inr ⟨by unfold CSIBacklog.accepts; rw [hm]; exact hf, h⟩
    · rw [if_neg hf] at h
      injection h with h'
      refine Or.inl ⟨(congrArg Prod.fst h').symm, (congrArg Prod.snd h').symm, ?_⟩
      unfold CSIBacklog.accepts
      rw [hm]
      exact Bool.not_eq_true _ ▸ Bool.of_not_eq_true hf

theorem reachable_goodState {Chan Rssi : Type} (s : CSIBacklog Chan Rssi)
    (hs : CSIBacklog.Reachable s) : GoodState s := by
  induction hs with
  | init zc zr eh cal n =>
    intro hN
    refine ⟨?_, ?_, ?_, ?_, ?_, ?_, ?_⟩ <;> simp [CSIBacklog.init]
    exact hN
  | frame pool s s' c k hs hok ih =>
    intro hN
    rcases onNewCSI_ok_cases pool s s' c k hok with ⟨rfl, _⟩ | ⟨hacc, hok'⟩
    · exact ih hN
    · obtain ⟨hsz, _, _, _, _, _, _, hhd, hlat, hfl, hlt, hlh, hlr, _⟩ :=
        acceptFrame_ok_fields pool s s' c k hok'
      have hNs : 0 < s.size := by rw [← hsz]; exact hN
      obtain ⟨ilt, ilh, ilr, ifl, ihd, _, _⟩ := ih hNs
      refine ⟨?_, ?_, ?_, ?_, ?_, ?_, ?_⟩
      · rw [hlt, hsz, ilt]
      · rw [hlh, hsz, ilh]
      · rw [hlr, hsz, ilr]
      · rw [hfl, hsz]; exact Nat.min_le_right _ _
      · rw [hhd, hsz]; exact Nat.mod_lt _ hNs
      · rw [hlat, hfl]
        simp only [Option.isSome_some, true_iff]
        omega
      · intro i hi
        rw [hlat] at hi
        injection hi with hi'
        rw [← hi', hsz]
        exact ihd
  | set_filter s r hs ih =>
    cases r with
    | error e => exact ih
    | ok f =>
      intro hN
      exact ih hN
  | callback s hs ih => exact ih
  | start s hs ih => exact ih
  | stop s hs ih => exact ih

theorem ringInv_snapshots {Chan Rssi : Type} (zeroChan : Chan) (zeroRssi : Rssi)
    (eh : Bool) (N : Nat) (L : List (ClusteredCSI Chan Rssi))
    (s : CSIBacklog Chan Rssi) (hN : 0 < N) (hL : L ≠ [])
    (hinv : RingInv zeroChan zeroRssi eh N L s) :
    s.get_timestamps = (L.map fun c => npMean c.sensor_timestamps).drop (L.length - N) ∧
    s.get_rssi = (L.map ClusteredCSI.rssi).drop (L.length - N) ∧
    (eh = true → (∀ c ∈ L, c.is_ht40 = true) →
      s.get_ht40 = Except.ok ((L.map ClusteredCSI.csi_ht40).drop (L.length - N))) := by
  obtain ⟨hsize, henh, hcal, hmf, hhead, hfill, hlents, hlench, hlenr,
    hlatest, hrts, hrrs, hrch⟩ := hinv
  refine ⟨?_, ?_, ?_⟩
  · unfold CSIBacklog.get_timestamps
    rw [hrts, hfill,
        show L.length = (L.map fun c => npMean c.sensor_timestamps).length by
          rw [List.length_map],
        negSlice_pad0 _ _ _ hN (by simpa using hL), List.length_map]
  · unfold CSIBacklog.get_rssi
    rw [hrrs, hfill,
        show L.length = (L.map ClusteredCSI.rssi).length by rw [List.length_map],
        negSlice_pad0 _ _ _ hN (by simpa using hL), List.length_map]
  · intro hehT hall
    unfold CSIBacklog.get_ht40
    rw [henh, hehT, if_pos rfl]
    rw [hrch hehT hall, hfill,
        show L.length = (L.map ClusteredCSI.csi_ht40).length by rw [List.length_map],
        negSlice_pad0 _ _ _ hN (by simpa using hL), List.length_map]

theorem acceptFrame_cal_ok {Chan Rssi : Type} (pool : Pool Chan)
    (s : CSIBacklog Chan Rssi) (c : ClusteredCSI Chan Rssi)
    (hcal : s.calibrate = true → pool.calibration.isSome = true) :
    s.acceptFrame pool c = Except.ok ({ s with
        storage_timestamps := s.storage_timestamps.set s.head (storedTimestamp pool s c),
        storage_ht40 := if s.enable_ht40 && c.is_ht40 then
            s.storage_ht40.set s.head (storedHt40 pool s c)
          else s.storage_ht40,
        storage_rssi := s.storage_rssi.set s.head c.rssi,
        latest := some s.head,
        head := (s.head + 1) % s.size,
        filllevel := min (s.filllevel + 1) s.size }, s.callbacks) := by
  by_cases hc : s.calibrate = true
  · obtain ⟨cal, hcal'⟩ := Option.isSome_iff_exists.mp (hcal hc)
    unfold CSIBacklog.acceptFrame storedTimestamp storedHt40
    rw [hc, hcal']
    simp only [if_true, Option.map_some', Option.getD_some]
    by_cases hb : (s.enable_ht40 && c.is_ht40) = true
    · rw [if_pos hb, if_pos hb]
    · rw [if_neg hb, if_neg hb]
  · have hc' : s.calibrate = false := Bool.not_eq_true _ ▸ Bool.of_not_eq_true hc
    rw [acceptFrame_nocal pool s c hc']
    unfold CSIBacklog.pureStep storedTimestamp storedHt40
    rw [hc']
    simp only [Bool.false_eq_true, if_false]

theorem negSlice_length {α : Type} (l : List α) (k : Nat) (hk : k ≤ l.length) :
    (negSlice l k).length = if k = 0 then l.length else k := by
  unfold negSlice
  by_cases h0 : k = 0
  · rw [if_pos h0, if_pos h0]
  · rw [if_neg h0, if_neg h0, List.length_drop]
    omega

theorem onNewCSI_accepts {Chan Rssi : Type} (pool : Pool Chan)
    (s : CSIBacklog Chan Rssi) (c : ClusteredCSI Chan Rssi)
    (hacc : s.accepts c = true) :
    s.onNewCSI pool c = s.acceptFrame pool c := by
  unfold CSIBacklog.onNewCSI
  unfold CSIBacklog.accepts at hacc
  cases hm : s.mac_filter with
  | none => rfl
  | some f =>
    simp only [hm] at hacc
    simp only [hacc, if_true]

theorem foldl_pureStep_fill_sat {Chan Rssi : Type}
    (M : List (ClusteredCSI Chan Rssi)) (s : CSIBacklog Chan Rssi)
    (hfs : s.filllevel = s.size) :
    (M.foldl CSIBacklog.pureStep s).filllevel = s.size ∧
    (M.foldl CSIBacklog.pureStep s).size = s.size := by
  induction M generalizing s with
  | nil => exact ⟨hfs, rfl⟩
  | cons c rest ih =>
    rw [List.foldl_cons]
    have h1 : (s.pureStep c).filllevel = (s.pureStep c).size := by
      show min (s.filllevel + 1) s.size = s.size
      rw [hfs]
      omega
    exact ih (s.pureStep c) h1

/-- Claim C3: with a MAC filter installed that the frame's origin
identifier does not match, `onNewCSI` returns with the state completely
unchanged (the very same state: `head`, `fill_level`, `latest` and all
three storage arrays included) and performs zero subscriber-callback
invocations. -/
theorem claim_C3_theorem {Chan Rssi : Type} (pool : Pool Chan)
    (s : CSIBacklog Chan Rssi) (c : ClusteredCSI Chan Rssi)
    (f : String → Bool) (hf : s.mac_filter = some f)
    (hm : f c.source_mac = false) :
    s.onNewCSI pool c = Except.ok (s, 0) := by
  unfold CSIBacklog.onNewCSI
  simp only [hf, hm, Bool.false_eq_true, if_false]

/-- Witness for C3: a backlog of capacity 2 with a filter matching only
the identifier AA:BB:CC:DD:EE:FF drops a frame arriving from
11:22:33:44:55:66 without any state change or callback invocation. -/
theorem claim_C3_witness :
    (((CSIBacklog.init (0 : Int) (0 : Int) true false 2).set_mac_filter
        (Except.ok (fun m => m == "AA:BB:CC:DD:EE:FF"))).1).onNewCSI (Pool.mk none)
      (ClusteredCSI.mk "11:22:33:44:55:66" [1] true 5 7) =
    Except.ok ((((CSIBacklog.init (0 : Int) (0 : Int) true false 2).set_mac_filter
        (Except.ok (fun m => m == "AA:BB:CC:DD:EE:FF"))).1), 0) :=
  claim_C3_theorem _ _ _ _ rfl (by decide)

/-- Claim C7: `set_mac_filter` with a failing `re.compile` outcome
reports that error and leaves the whole state — in particular the
previously installed filter, or the absence of one — unchanged; with a
successfully compiled pattern it replaces the previous filter
wholesale. -/
theorem claim_C7_theorem {Chan Rssi : Type} (s : CSIBacklog Chan Rssi) :
    (∀ e : String, s.set_mac_filter (Except.error e) = (s, some e)) ∧
    (∀ f : String → Bool,
      s.set_mac_filter (Except.ok f) = ({ s with mac_filter := some f }, none)) :=
  ⟨fun _ => rfl, fun _ => rfl⟩

/-- Counterexample to claim C9: on a state whose producer is already
running (`running = True`, one producer context spawned), `start()`
does not fail — it spawns a second producer context. -/
theorem claim_C9_counterexample :
    (CSIBacklog.init (0 : Int) (0 : Int) true false 2).start.running = true ∧
    (CSIBacklog.init (0 : Int) (0 : Int) true false 2).start.thread_starts = 1 ∧
    (CSIBacklog.init (0 : Int) (0 : Int) true false 2).start.start.thread_starts = 2 :=
  ⟨rfl, rfl, rfl⟩

/-- Claim C9 (amended): `start()` inspects no lifecycle state and cannot
fail; called while the producer is already running it spawns one more
producer context and leaves every other field unchanged. -/
theorem claim_C9_theorem {Chan Rssi : Type} (s : CSIBacklog Chan Rssi)
    (hr : s.running = true) :
    s.start.thread_starts = s.thread_starts + 1 ∧
    s.start.running = true ∧
    s.start.head = s.head ∧ s.start.filllevel = s.filllevel ∧
    s.start.latest = s.latest ∧
    s.start.storage_timestamps = s.storage_timestamps ∧
    s.start.storage_ht40 = s.storage_ht40 ∧
    s.start.storage_rssi = s.storage_rssi :=
  ⟨rfl, hr, rfl, rfl, rfl, rfl, rfl, rfl⟩

/-- Witness for C9 (amended) on an already-running concrete backlog. -/
theorem claim_C9_witness :
    (CSIBacklog.init (0 : Int) (0 : Int) true false 2).start.start.thread_starts =
      (CSIBacklog.init (0 : Int) (0 : Int) true false 2).start.thread_starts + 1 :=
  (claim_C9_theorem ((CSIBacklog.init (0 : Int) (0 : Int) true false 2).start) rfl).1

/-- Claim C10: with HT40 tracking disabled both `get_ht40` and `get_all`
fail their assertion instead of returning data, while `get_rssi` and
`get_timestamps` are insensitive to the flag and remain callable; with
tracking enabled the assertion never fires. -/
theorem claim_C10_theorem {Chan Rssi : Type} (s : CSIBacklog Chan Rssi) (b : Bool) :
    CSIBacklog.get_ht40 { s with enable_ht40 := false } =
      Except.error "assertion failed: self.enable_ht40" ∧
    CSIBacklog.get_all { s with enable_ht40 := false } =
      Except.error "assertion failed: self.enable_ht40" ∧
    CSIBacklog.get_rssi { s with enable_ht40 := b } = s.get_rssi ∧
    CSIBacklog.get_timestamps { s with enable_ht40 := b } = s.get_timestamps ∧
    CSIBacklog.get_ht40 { s with enable_ht40 := true } =
      Except.ok (negSlice (rollLeft s.storage_ht40 s.head) s.filllevel) ∧
    (CSIBacklog.get_all { s with enable_ht40 := true }).isOk = true :=
  ⟨rfl, rfl, rfl, rfl, rfl, rfl⟩

/-- Counterexample to claim C4: with calibration requested at
construction and a pool without calibration adapter, `start()` raises
nothing (it just spawns the producer context), while the first frame
processed by `onNewCSI` raises the calibration assertion — the failure
is lazy and per-frame, not at `start()`. -/
theorem claim_C4_counterexample :
    (CSIBacklog.init (0 : Int) (0 : Int) true true 2).start.thread_starts = 1 ∧
    (CSIBacklog.init (0 : Int) (0 : Int) true true 2).onNewCSI (Pool.mk none)
      (ClusteredCSI.mk "aa:bb:cc:dd:ee:ff" [1] true 5 7) =
    Except.error "assertion failed: self.pool.get_calibration() is not None" :=
  ⟨rfl, rfl⟩

/-- Claim C4 (amended): when calibration is requested but the pool
provides no calibration adapter, `start()` performs no check and
succeeds, merely spawning the producer thread; the failure instead
surfaces lazily inside per-frame processing, where `onNewCSI` raises
its calibration assertion on every accepted frame. -/
theorem claim_C4_theorem {Chan Rssi : Type} (pool : Pool Chan)
    (s : CSIBacklog Chan Rssi) (c : ClusteredCSI Chan Rssi)
    (hcal : s.calibrate = true) (hpool : pool.calibration = none)
    (hacc : s.accepts c = true) :
    s.start.thread_starts = s.thread_starts + 1 ∧
    s.start.running = s.running ∧
    s.onNewCSI pool c =
      Except.error "assertion failed: self.pool.get_calibration() is not None" := by
  refine ⟨rfl, rfl, ?_⟩
  rw [onNewCSI_accepts pool s c hacc]
  unfold CSIBacklog.acceptFrame
  rw [hcal, hpool]
  rfl

/-- Witness for C4 (amended) at a concrete backlog with `calibrate =
True` and a pool without calibration adapter. -/
theorem claim_C4_witness :
    (CSIBacklog.init (1 : Int) (1 : Int) true true 3).start.thread_starts =
      (CSIBacklog.init (1 : Int) (1 : Int) true true 3).thread_starts + 1 ∧
    (CSIBacklog.init (1 : Int) (1 : Int) true true 3).start.running =
      (CSIBacklog.init (1 : Int) (1 : Int) true true 3).running ∧
    (CSIBacklog.init (1 : Int) (1 : Int) true true 3).onNewCSI (Pool.mk none)
      (ClusteredCSI.mk "aa:bb:cc:dd:ee:ff" [2] true 5 7) =
    Except.error "assertion failed: self.pool.get_calibration() is not None" :=
  claim_C4_theorem (Pool.mk none) (CSIBacklog.init (1 : Int) (1 : Int) true true 3)
    (ClusteredCSI.mk "aa:bb:cc:dd:ee:ff" [2] true 5 7) rfl rfl rfl

/-- Claim C5: on every reachable state of positive capacity,
`get_latest_timestamp` returns the explicit empty result `none` exactly
when `fill_level = 0` — never an error and never a sentinel number —
and when `fill_level > 0` it returns the stored timestamp at the
in-bounds index `latest`. -/
theorem claim_C5_theorem {Chan Rssi : Type} (s : CSIBacklog Chan Rssi)
    (hs : s.Reachable) (hN : 0 < s.size) :
    (s.filllevel = 0 → s.get_latest_timestamp = none) ∧
    (0 < s.filllevel →
      ∃ i, s.latest = some i ∧ i < s.size ∧
        s.get_latest_timestamp = some (s.storage_timestamps.getD i 0)) := by
  obtain ⟨_, _, _, _, _, hiff, hbound⟩ := reachable_goodState s hs hN
  constructor
  · intro h0
    have hnone : s.latest = none := by
      cases hl : s.latest with
      | none => rfl
      | some i =>
        rw [hl] at hiff
        simp only [Option.isSome_some, true_iff] at hiff
        omega
    unfold CSIBacklog.get_latest_timestamp
    rw [hnone]
  · intro hpos
    have hsome := hiff.mpr hpos
    cases hl : s.latest with
    | none => rw [hl] at hsome; simp at hsome
    | some i =>
      refine ⟨i, rfl, hbound i hl, ?_⟩
      unfold CSIBacklog.get_latest_timestamp
      rw [hl]

/-- Witness for C5 on a freshly constructed backlog of capacity 1. -/
theorem claim_C5_witness :
    ((CSIBacklog.init (0 : Int) (0 : Int) true false 1).filllevel = 0 →
      (CSIBacklog.init (0 : Int) (0 : Int) true false 1).get_latest_timestamp = none) ∧
    (0 < (CSIBacklog.init (0 : Int) (0 : Int) true false 1).filllevel →
      ∃ i, (CSIBacklog.init (0 : Int) (0 : Int) true false 1).latest = some i ∧
        i < (CSIBacklog.init (0 : Int) (0 : Int) true false 1).size ∧
        (CSIBacklog.init (0 : Int) (0 : Int) true false 1).get_latest_timestamp =
          some ((CSIBacklog.init (0 : Int)
            (0 : Int) true false 1).storage_timestamps.getD i 0)) :=
  claim_C5_theorem (CSIBacklog.init (0 : Int) (0 : Int) true false 1)
    (CSIBacklog.Reachable.init 0 0 true false 1) (by decide)

/-- Claim C6: on every reachable state of positive capacity the
invariants hold: `0 ≤ head < capacity`, `0 ≤ fill_level ≤ capacity`,
`latest` is defined iff `fill_level > 0`, and `nonempty()` returns
exactly `fill_level > 0`; moreover any `onNewCSI` call that returns
never decreases `fill_level`, and an accepted frame advances `head` by
exactly one modulo capacity and raises `fill_level` by one, capped at
capacity. -/
theorem claim_C6_theorem {Chan Rssi : Type} (s : CSIBacklog Chan Rssi)
    (hs : s.Reachable) (hN : 0 < s.size) :
    s.head < s.size ∧ s.filllevel ≤ s.size ∧
    (s.latest.isSome ↔ 0 < s.filllevel) ∧
    (s.nonempty = true ↔ 0 < s.filllevel) ∧
    (∀ (pool : Pool Chan) (c : ClusteredCSI Chan Rssi)
        (s' : CSIBacklog Chan Rssi) (k : Nat),
      s.onNewCSI pool c = Except.ok (s', k) →
        s.filllevel ≤ s'.filllevel ∧
        (s.accepts c = true →
          s'.head = (s.head + 1) % s.size ∧
          s'.filllevel = min (s.filllevel + 1) s.size)) := by
  obtain ⟨_, _, _, hfl, hhd, hiff, _⟩ := reachable_goodState s hs hN
  refine ⟨hhd, hfl, hiff, hiff, ?_⟩
  intro pool c s' k hok
  rcases onNewCSI_ok_cases pool s s' c k hok with ⟨rfl, _, hrej⟩ | ⟨hacc, hok'⟩
  · exact ⟨le_refl _, fun haccT => absurd haccT (by rw [hrej]; exact Bool.false_ne_true)⟩
  · obtain ⟨_, _, _, _, _, _, _, hhd', _, hfl', _, _, _, _⟩ :=
      acceptFrame_ok_fields pool s s' c k hok'
    refine ⟨?_, fun _ => ⟨hhd', hfl'⟩⟩
    rw [hfl']
    omega

/-- Witness for C6 on a freshly constructed backlog of capacity 2. -/
theorem claim_C6_witness :
    (CSIBacklog.init (0 : Int) (0 : Int) true false 2).head <
      (CSIBacklog.init (0 : Int) (0 : Int) true false 2).size ∧
    (CSIBacklog.init (0 : Int) (0 : Int) true false 2).filllevel ≤
      (CSIBacklog.init (0 : Int) (0 : Int) true false 2).size ∧
    ((CSIBacklog.init (0 : Int) (0 : Int) true false 2).latest.isSome ↔
      0 < (CSIBacklog.init (0 : Int) (0 : Int) true false 2).filllevel) ∧
    ((CSIBacklog.init (0 : Int) (0 : Int) true false 2).nonempty = true ↔
      0 < (CSIBacklog.init (0 : Int) (0 : Int) true false 2).filllevel) ∧
    (∀ (pool : Pool Int) (c : ClusteredCSI Int Int)
        (s' : CSIBacklog Int Int) (k : Nat),
      (CSIBacklog.init (0 : Int) (0 : Int) true false 2).onNewCSI pool c =
          Except.ok (s', k) →
        (CSIBacklog.init (0 : Int) (0 : Int) true false 2).filllevel ≤ s'.filllevel ∧
        ((CSIBacklog.init (0 : Int) (0 : Int) true false 2).accepts c = true →
          s'.head = ((CSIBacklog.init (0 : Int) (0 : Int) true false 2).head + 1) %
            (CSIBacklog.init (0 : Int) (0 : Int) true false 2).size ∧
          s'.filllevel =
            min ((CSIBacklog.init (0 : Int) (0 : Int) true false 2).filllevel + 1)
              (CSIBacklog.init (0 : Int) (0 : Int) true false 2).size)) :=
  claim_C6_theorem (CSIBacklog.init (0 : Int) (0 : Int) true false 2)
    (CSIBacklog.Reachable.init 0 0 true false 2) (by decide)

/-- Claim C8: for every accepted frame (with the calibration assert
satisfiable), `onNewCSI` stores the frame's (mean, optionally
calibrated) timestamp at `storage_timestamps[head]` and its
signal-strength tensor at `storage_rssi[head]` unconditionally, while
`storage_ht40` is left entirely untouched when the frame lacks channel
data in the tracked HT40 mode and is overwritten at `head` with the
frame's (optionally calibrated) channel tensor when it carries it. -/
theorem claim_C8_theorem {Chan Rssi : Type} (pool : Pool Chan)
    (s : CSIBacklog Chan Rssi) (c : ClusteredCSI Chan Rssi)
    (hacc : s.accepts c = true)
    (hcal : s.calibrate = true → pool.calibration.isSome = true) :
    ∃ s', s.onNewCSI pool c = Except.ok (s', s.callbacks) ∧
      s'.storage_timestamps =
        s.storage_timestamps.set s.head (storedTimestamp pool s c) ∧
      s'.storage_rssi = s.storage_rssi.set s.head c.rssi ∧
      ((s.enable_ht40 && c.is_ht40) = false → s'.storage_ht40 = s.storage_ht40) ∧
      ((s.enable_ht40 && c.is_ht40) = true →
        s'.storage_ht40 = s.storage_ht40.set s.head (storedHt40 pool s c)) := by
  rw [onNewCSI_accepts pool s c hacc, acceptFrame_cal_ok pool s c hcal]
  refine ⟨_, rfl, rfl, rfl, ?_, ?_⟩
  · intro hb
    show (if s.enable_ht40 && c.is_ht40 then
        s.storage_ht40.set s.head (storedHt40 pool s c)
      else s.storage_ht40) = s.storage_ht40
    rw [hb]
    rfl
  · intro hb
    show (if s.enable_ht40 && c.is_ht40 then
        s.storage_ht40.set s.head (storedHt40 pool s c)
      else s.storage_ht40) = s.storage_ht40.set s.head (storedHt40 pool s c)
    rw [hb]
    rfl

/-- Witness for C8: a backlog of capacity 2 in HT40 mode without
calibration accepts a non-HT40 frame; the channel storage stays
untouched while timestamp and RSSI are stored at `head`. -/
theorem claim_C8_witness :
    ∃ s', (CSIBacklog.init (0 : Int) (0 : Int) true false 2).onNewCSI (Pool.mk none)
        (ClusteredCSI.mk "aa:bb:cc:dd:ee:ff" [3] false 5 7) =
      Except.ok (s', (CSIBacklog.init (0 : Int) (0 : Int) true false 2).callbacks) ∧
      s'.storage_timestamps =
        (CSIBacklog.init (0 : Int) (0 : Int) true false 2).storage_timestamps.set
          (CSIBacklog.init (0 : Int) (0 : Int) true false 2).head
          (storedTimestamp (Pool.mk none)
            (CSIBacklog.init (0 : Int) (0 : Int) true false 2)
            (ClusteredCSI.mk "aa:bb:cc:dd:ee:ff" [3] false 5 7)) ∧
      s'.storage_rssi =
        (CSIBacklog.init (0 : Int) (0 : Int) true false 2).storage_rssi.set
          (CSIBacklog.init (0 : Int) (0 : Int) true false 2).head
          (ClusteredCSI.mk "aa:bb:cc:dd:ee:ff" [3] false (5 : Int) (7 : Int)).rssi ∧
      (((CSIBacklog.init (0 : Int) (0 : Int) true false 2).enable_ht40 &&
          (ClusteredCSI.mk "aa:bb:cc:dd:ee:ff" [3] false (5 : Int) (7 : Int)).is_ht40) = false →
        s'.storage_ht40 = (CSIBacklog.init (0 : Int) (0 : Int) true false 2).storage_ht40) ∧
      (((CSIBacklog.init (0 : Int) (0 : Int) true false 2).enable_ht40 &&
          (ClusteredCSI.mk "aa:bb:cc:dd:ee:ff" [3] false (5 : Int) (7 : Int)).is_ht40) = true →
        s'.storage_ht40 =
          (CSIBacklog.init (0 : Int) (0 : Int) true false 2).storage_ht40.set
            (CSIBacklog.init (0 : Int) (0 : Int) true false 2).head
            (storedHt40 (Pool.mk none) (CSIBacklog.init (0 : Int) (0 : Int) true false 2)
              (ClusteredCSI.mk "aa:bb:cc:dd:ee:ff" [3] false 5 7))) :=
  claim_C8_theorem (Pool.mk none) (CSIBacklog.init (0 : Int) (0 : Int) true false 2)
    (ClusteredCSI.mk "aa:bb:cc:dd:ee:ff" [3] false 5 7) rfl (by decide)

/-- Claim C2: starting from a fresh backlog of capacity `N > 0` (HT40
mode, no filter, calibration off), after `count ≥ N` accepted HT40
frames the fill level is exactly `N` and remains `N` under any further
frames, every snapshot equals the last `N` inserted frames in insertion
order — so the oldest surviving entry is the `(count − N)`-th inserted
frame, i.e. eviction is strict FIFO — and `get_latest_timestamp`
returns the last inserted frame's timestamp. -/
theorem claim_C2_theorem {Chan Rssi : Type} (zeroChan : Chan) (zeroRssi : Rssi)
    (pool : Pool Chan) (N : Nat) (L : List (ClusteredCSI Chan Rssi))
    (hN : 0 < N) (hlen : N ≤ L.length) (hall : ∀ c ∈ L, c.is_ht40 = true) :
    ∃ s, CSIBacklog.processAll pool
        (CSIBacklog.init zeroChan zeroRssi true false N) L = Except.ok s ∧
      s.filllevel = N ∧
      s.get_timestamps =
        (L.map fun c => npMean c.sensor_timestamps).drop (L.length - N) ∧
      s.get_rssi = (L.map ClusteredCSI.rssi).drop (L.length - N) ∧
      s.get_ht40 = Except.ok ((L.map ClusteredCSI.csi_ht40).drop (L.length - N)) ∧
      s.get_latest_timestamp =
        (L.map fun c => npMean c.sensor_timestamps).getLast? ∧
      (∀ M : List (ClusteredCSI Chan Rssi), ∃ s',
        CSIBacklog.processAll pool s M = Except.ok s' ∧ s'.filllevel = N) := by
  have hproc := processAll_pureStep pool
    (CSIBacklog.init zeroChan zeroRssi true false N) L rfl rfl
  have hinv := ring_master zeroChan zeroRssi true N hN L
  have hL : L ≠ [] := List.length_pos.mp (by omega)
  obtain ⟨hts, hrs, hch⟩ := ringInv_snapshots zeroChan zeroRssi true N L _ hN hL hinv
  obtain ⟨hsize, henh, hcal, hmf, hhead, hfill, hlents, hlench, hlenr,
    hlatest, hrts, hrrs, hrch⟩ := hinv
  refine ⟨_, hproc, ?_, hts, hrs, hch rfl hall, hlatest, ?_⟩
  · rw [hfill]
    omega
  · intro M
    refine ⟨_, processAll_pureStep pool _ M hcal hmf, ?_⟩
    obtain ⟨hf, _⟩ := foldl_pureStep_fill_sat M _ (by rw [hfill, hsize]; omega)
    rw [hf, hsize]

/-- Witness for C2: capacity 3, four frames with timestamps 0 < 1 < 2 <
3; afterwards the fill level is 3, the snapshots are [F1, F2, F3] and
the latest timestamp is 3. -/
theorem claim_C2_witness :
    ∃ s, CSIBacklog.processAll (Pool.mk none)
        (CSIBacklog.init (0 : Int) (0 : Int) true false 3)
        [ClusteredCSI.mk "aa" [0] true 10 20, ClusteredCSI.mk "aa" [1] true 11 21,
         ClusteredCSI.mk "aa" [2] true 12 22, ClusteredCSI.mk "aa" [3] true 13 23] =
        Except.ok s ∧
      s.filllevel = 3 ∧
      s.get_timestamps =
        ([ClusteredCSI.mk "aa" [0] true (10 : Int) (20 : Int),
          ClusteredCSI.mk "aa" [1] true 11 21, ClusteredCSI.mk "aa" [2] true 12 22,
          ClusteredCSI.mk "aa" [3] true 13 23].map
            fun c => npMean c.sensor_timestamps).drop
          ([ClusteredCSI.mk "aa" [0] true (10 : Int) (20 : Int),
            ClusteredCSI.mk "aa" [1] true 11 21, ClusteredCSI.mk "aa" [2] true 12 22,
            ClusteredCSI.mk "aa" [3] true 13 23].length - 3) ∧
      s.get_rssi =
        ([ClusteredCSI.mk "aa" [0] true (10 : Int) (20 : Int),
          ClusteredCSI.mk "aa" [1] true 11 21, ClusteredCSI.mk "aa" [2] true 12 22,
          ClusteredCSI.mk "aa" [3] true 13 23].map ClusteredCSI.rssi).drop
          ([ClusteredCSI.mk "aa" [0] true (10 : Int) (20 : Int),
            ClusteredCSI.mk "aa" [1] true 11 21, ClusteredCSI.mk "aa" [2] true 12 22,
            ClusteredCSI.mk "aa" [3] true 13 23].length - 3) ∧
      s.get_ht40 =
        Except.ok (([ClusteredCSI.mk "aa" [0] true (10 : Int) (20 : Int),
          ClusteredCSI.mk "aa" [1] true 11 21, ClusteredCSI.mk "aa" [2] true 12 22,
          ClusteredCSI.mk "aa" [3] true 13 23].map ClusteredCSI.csi_ht40).drop
          ([ClusteredCSI.mk "aa" [0] true (10 : Int) (20 : Int),
            ClusteredCSI.mk "aa" [1] true 11 21, ClusteredCSI.mk "aa" [2] true 12 22,
            ClusteredCSI.mk "aa" [3] true 13 23].length - 3)) ∧
      s.get_latest_timestamp =
        ([ClusteredCSI.mk "aa" [0] true (10 : Int) (20 : Int),
          ClusteredCSI.mk "aa" [1] true 11 21, ClusteredCSI.mk "aa" [2] true 12 22,
          ClusteredCSI.mk "aa" [3] true 13 23].map
            fun c => npMean c.sensor_timestamps).getLast? ∧
      (∀ M : List (ClusteredCSI Int Int), ∃ s',
        CSIBacklog.processAll (Pool.mk none) s M = Except.ok s' ∧ s'.filllevel = 3) :=
  claim_C2_theorem (0 : Int) (0 : Int) (Pool.mk none) 3
    [ClusteredCSI.mk "aa" [0] true 10 20, ClusteredCSI.mk "aa" [1] true 11 21,
     ClusteredCSI.mk "aa" [2] true 12 22, ClusteredCSI.mk "aa" [3] true 13 23]
    (by decide) (by decide) (by simp)

/-- Counterexample to claim C1: on a freshly constructed backlog of
capacity 2 — a reachable state with `fill_level = 0` — every snapshot
accessor returns 2 entries (the whole zero-initialised storage), not 0
entries, because the Python slice `[-0:]` is the whole array. -/
theorem claim_C1_counterexample :
    CSIBacklog.Reachable (CSIBacklog.init (0 : Int) (0 : Int) true false 2) ∧
    (CSIBacklog.init (0 : Int) (0 : Int) true false 2).filllevel = 0 ∧
    (CSIBacklog.init (0 : Int) (0 : Int) true false 2).get_timestamps = [0, 0] ∧
    (CSIBacklog.init (0 : Int) (0 : Int) true false 2).get_rssi = [0, 0] ∧
    (CSIBacklog.init (0 : Int) (0 : Int) true false 2).get_ht40 = Except.ok [0, 0] :=
  ⟨CSIBacklog.Reachable.init 0 0 true false 2, by decide, by decide, by decide,
    rfl⟩

/-- Claim C1 (amended): on every reachable state of positive capacity
with `fill_level ≥ 1` each snapshot accessor returns exactly
`fill_level` entries, and for frames delivered to a fresh backlog (HT40
mode, no filter, calibration off) the returned entries are the
delivered values ordered oldest-to-newest by insertion; but when
`fill_level = 0` each accessor instead returns all `capacity` slots of
the zero-initialised storage. -/
theorem claim_C1_theorem {Chan Rssi : Type} :
    (∀ s : CSIBacklog Chan Rssi, s.Reachable → 0 < s.size →
      (0 < s.filllevel →
        s.get_timestamps.length = s.filllevel ∧
        s.get_rssi.length = s.filllevel ∧
        (∀ l, s.get_ht40 = Except.ok l → l.length = s.filllevel)) ∧
      (s.filllevel = 0 →
        s.get_timestamps.length = s.size ∧
        s.get_rssi.length = s.size ∧
        (∀ l, s.get_ht40 = Except.ok l → l.length = s.size))) ∧
    (∀ (zeroChan : Chan) (zeroRssi : Rssi) (pool : Pool Chan) (N : Nat)
        (L : List (ClusteredCSI Chan Rssi)), 0 < N → L ≠ [] →
        (∀ c ∈ L, c.is_ht40 = true) →
      ∃ s, CSIBacklog.processAll pool
          (CSIBacklog.init zeroChan zeroRssi true false N) L = Except.ok s ∧
        s.filllevel = min L.length N ∧
        s.get_timestamps =
          (L.map fun c => npMean c.sensor_timestamps).drop (L.length - N) ∧
        s.get_rssi = (L.map ClusteredCSI.rssi).drop (L.length - N) ∧
        s.get_ht40 = Except.ok ((L.map ClusteredCSI.csi_ht40).drop (L.length - N))) := by
  constructor
  · intro s hs hN
    obtain ⟨hlt, hlh, hlr, hfl, _, _, _⟩ := reachable_goodState s hs hN
    have hts : s.get_timestamps.length =
        if s.filllevel = 0 then s.size else s.filllevel := by
      unfold CSIBacklog.get_timestamps
      rw [negSlice_length _ _ (by rw [rollLeft_length, hlt]; exact hfl),
          rollLeft_length, hlt]
    have hrs : s.get_rssi.length =
        if s.filllevel = 0 then s.size else s.filllevel := by
      unfold CSIBacklog.get_rssi
      rw [negSlice_length _ _ (by rw [rollLeft_length, hlr]; exact hfl),
          rollLeft_length, hlr]
    have hht : ∀ l, s.get_ht40 = Except.ok l →
        l.length = if s.filllevel = 0 then s.size else s.filllevel := by
      intro l hl
      unfold CSIBacklog.get_ht40 at hl
      by_cases he : s.enable_ht40 = true
      · rw [if_pos he] at hl
        injection hl with hl'
        rw [← hl',
            negSlice_length _ _ (by rw [rollLeft_length, hlh]; exact hfl),
            rollLeft_length, hlh]
      · rw [if_neg he] at hl
        exact absurd hl (by simp)
    constructor
    · intro hpos
      refine ⟨?_, ?_, fun l hl => ?_⟩
      · rw [hts, if_neg (by omega)]
      · rw [hrs, if_neg (by omega)]
      · rw [hht l hl, if_neg (by omega)]
    · intro h0
      refine ⟨?_, ?_, fun l hl => ?_⟩
      · rw [hts, if_pos h0]
      · rw [hrs, if_pos h0]
      · rw [hht l hl, if_pos h0]
  · intro zeroChan zeroRssi pool N L hN hL hall
    have hproc := processAll_pureStep pool
      (CSIBacklog.init zeroChan zeroRssi true false N) L rfl rfl
    have hinv := ring_master zeroChan zeroRssi true N hN L
    obtain ⟨hts, hrs, hch⟩ := ringInv_snapshots zeroChan zeroRssi true N L _ hN hL hinv
    exact ⟨_, hproc, hinv.2.2.2.2.2.1, hts, hrs, hch rfl hall⟩

/-- Witness for C1 (amended): the empty-backlog branch at capacity 2
and the ordered-content branch for a single frame at capacity 2. -/
theorem claim_C1_witness :
    ((0 < (CSIBacklog.init (0 : Int) (0 : Int) true false 2).filllevel →
      (CSIBacklog.init (0 : Int) (0 : Int) true false 2).get_timestamps.length =
        (CSIBacklog.init (0 : Int) (0 : Int) true false 2).filllevel ∧
      (CSIBacklog.init (0 : Int) (0 : Int) true false 2).get_rssi.length =
        (CSIBacklog.init (0 : Int) (0 : Int) true false 2).filllevel ∧
      (∀ l, (CSIBacklog.init (0 : Int) (0 : Int) true false 2).get_ht40 =
          Except.ok l →
        l.length = (CSIBacklog.init (0 : Int) (0 : Int) true false 2).filllevel)) ∧
    ((CSIBacklog.init (0 : Int) (0 : Int) true false 2).filllevel = 0 →
      (CSIBacklog.init (0 : Int) (0 : Int) true false 2).get_timestamps.length =
        (CSIBacklog.init (0 : Int) (0 : Int) true false 2).size ∧
      (CSIBacklog.init (0 : Int) (0 : Int) true false 2).get_rssi.length =
        (CSIBacklog.init (0 : Int) (0 : Int) true false 2).size ∧
      (∀ l, (CSIBacklog.init (0 : Int) (0 : Int) true false 2).get_ht40 =
          Except.ok l →
        l.length = (CSIBacklog.init (0 : Int) (0 : Int) true false 2).size))) ∧
    (∃ s, CSIBacklog.processAll (Pool.mk none)
        (CSIBacklog.init (0 : Int) (0 : Int) true false 2)
        [ClusteredCSI.mk "aa" [5] true 9 11] = Except.ok s ∧
      s.filllevel = min [ClusteredCSI.mk "aa" [5] true (9 : Int) (11 : Int)].length 2 ∧
      s.get_timestamps =
        ([ClusteredCSI.mk "aa" [5] true (9 : Int) (11 : Int)].map
          fun c => npMean c.sensor_timestamps).drop
          ([ClusteredCSI.mk "aa" [5] true (9 : Int) (11 : Int)].length - 2) ∧
      s.get_rssi = ([ClusteredCSI.mk "aa" [5] true (9 : Int) (11 : Int)].map
          ClusteredCSI.rssi).drop
          ([ClusteredCSI.mk "aa" [5] true (9 : Int) (11 : Int)].length - 2) ∧
      s.get_ht40 = Except.ok (([ClusteredCSI.mk "aa" [5] true (9 : Int) (11 : Int)].map
          ClusteredCSI.csi_ht40).drop
          ([ClusteredCSI.mk "aa" [5] true (9 : Int) (11 : Int)].length - 2))) :=
  ⟨claim_C1_theorem.1 (CSIBacklog.init (0 : Int) (0 : Int) true false 2)
      (CSIBacklog.Reachable.init 0 0 true false 2) (by decide),
    claim_C1_theorem.2 0 0 (Pool.mk none) 2 [ClusteredCSI.mk "aa" [5] true 9 11]
      (by decide) (List.cons_ne_nil _ _) (by simp)⟩
